import Mathlib

/-!
Verification of the ledger and tax-computation engine of the `accountant`
repository (UK bookkeeping application).

The Python source is shallowly embedded: monetary amounts, which the code
carries as Python `Decimal`s / JSON numbers, are modelled as exact rationals
(`ℚ`); fallible code paths (Python `raise`) are modelled with `Except`;
in-place mutation of the store is modelled by explicit state passing.
Python `Decimal.quantize(Decimal('0.01'), ROUND_HALF_UP)` is modelled by
`pyQuantize2` (ties away from zero) and Python `round(x, 2)` by `pyRound2`
(ties to even).
-/

namespace Accountant

/-- Round a rational to the nearest integer, ties away from zero
(Python `decimal.ROUND_HALF_UP`). -/
def roundHalfAway (q : ℚ) : ℤ :=
  if 0 ≤ q then ⌊q + 1/2⌋ else -(⌊-q + 1/2⌋)

/-- Model of `Decimal(...).quantize(Decimal('0.01'), rounding=ROUND_HALF_UP)`:
round to two decimal places, ties away from zero. -/
def pyQuantize2 (q : ℚ) : ℚ :=
  (roundHalfAway (q * 100) : ℚ) / 100

/-- Round a rational to the nearest integer, ties to even
(Python's built-in `round`). -/
def roundHalfEven (q : ℚ) : ℤ :=
  let f := ⌊q⌋
  let r := q - f
  if r < 1/2 then f
  else if 1/2 < r then f + 1
  else if f % 2 = 0 then f else f + 1

/-- Model of Python `round(x, 2)`: round to two decimal places, ties to even. -/
def pyRound2 (q : ℚ) : ℚ :=
  (roundHalfEven (q * 100) : ℚ) / 100

/-- A ledger posting, mirroring `Transaction.__init__` in
`src/core/transaction.py` (ids are modelled as naturals; the store assigns
integer ids). -/
structure Transaction where
  id : Nat
  date : String
  description : String
  account : String
  debit : ℚ
  credit : ℚ
  vat : ℚ
  document_number : String
  status : String
  transaction_type : String
  notes : String
deriving Repr, DecidableEq

/-- Model of `Transaction.__init__`: the monetary fields are quantized to two
decimal places with ROUND_HALF_UP; no sign check is performed. -/
def mkTransaction (id : Nat) (date description account : String)
    (debit credit vat : ℚ) (document_number status transaction_type notes : String) :
    Transaction :=
  { id := id, date := date, description := description, account := account
    debit := pyQuantize2 debit, credit := pyQuantize2 credit, vat := pyQuantize2 vat
    document_number := document_number, status := status
    transaction_type := transaction_type, notes := notes }

/-- Model of `Transaction.validate` (`src/core/transaction.py`): returns
`(is_valid, error message)`.  Checks, in order: non-empty date, non-empty
account, not both amounts zero, not both amounts positive.  It never checks
that `debit`, `credit` or `vat` are non-negative. -/
def Transaction.validate (t : Transaction) : Bool × Option String :=
  if t.date = "" then (false, some ("date is required"))
  else if t.account = "" then (false, some ("account code is required"))
  else if t.debit = 0 ∧ t.credit = 0 then
    (false, some ("debit or credit must be greater than zero"))
  else if 0 < t.debit ∧ 0 < t.credit then
    (false, some ("debit and credit cannot both be positive"))
  else (true, none)

/-- Result of `TransactionManager.add_transaction`: the success flag together
with the resulting transaction store. -/
structure TmAddResult where
  ok : Bool
  store : List Transaction
deriving Repr, DecidableEq

/-- Model of `TransactionManager.add_transaction` (`src/core/transaction.py`):
validate, and only on success append the transaction to the store. -/
def tmAddTransaction (store : List Transaction) (t : Transaction) : TmAddResult :=
  match t.validate with
  | (false, _) => { ok := false, store := store }
  | (true, _) => { ok := true, store := store ++ [t] }

/-- Claim C8 — Debit/credit exclusivity: for every transaction with a
non-empty date and account code, validation fails whenever `debit > 0` and
`credit > 0` hold simultaneously, and whenever both are zero; such a
transaction is never accepted (and never persisted) by
`TransactionManager.add_transaction`. -/
theorem debit_credit_exclusivity (t : Transaction) (store : List Transaction)
    (hdate : t.date ≠ "") (hacct : t.account ≠ "")
    (h : (0 < t.debit ∧ 0 < t.credit) ∨ (t.debit = 0 ∧ t.credit = 0)) :
    (t.validate).1 = false ∧
      tmAddTransaction store t = { ok := false, store := store } := by
  have hval : (t.validate).1 = false := by
    unfold Transaction.validate
    rw [if_neg hdate, if_neg hacct]
    rcases h with ⟨h1, h2⟩ | ⟨h1, h2⟩
    · have h0 : ¬(t.debit = 0 ∧ t.credit = 0) := by
        rintro ⟨e, -⟩
        exact absurd e h1.ne'
      rw [if_neg h0, if_pos ⟨h1, h2⟩]
    · rw [if_pos ⟨h1, h2⟩]
  refine ⟨hval, ?_⟩
  unfold tmAddTransaction
  rcases hv : t.validate with ⟨b, msg⟩
  rw [hv] at hval
  simp only at hval
  subst hval
  rfl

/-- Witness for C8: a concrete transaction with debit 10 and credit 10 fails
validation and is rejected without being persisted. -/
theorem debit_credit_exclusivity_witness :
    ((mkTransaction 1 "2024-01-01" "" "1000" 10 10 0 "" "unreconciled" "manual" "").validate).1
        = false ∧
      tmAddTransaction []
          (mkTransaction 1 "2024-01-01" "" "1000" 10 10 0 "" "unreconciled" "manual" "") =
        { ok := false, store := [] } :=
  debit_credit_exclusivity
    (mkTransaction 1 "2024-01-01" "" "1000" 10 10 0 "" "unreconciled" "manual" "") []
    (by decide) (by decide)
    (Or.inl (by constructor <;> norm_num [mkTransaction, pyQuantize2, roundHalfAway]))

/-- Claim C10 — Negative amounts pass validation: a transaction with debit
−5 and credit 0 (non-empty date and account) is reported valid by
`Transaction.validate` and is accepted and persisted by
`TransactionManager.add_transaction`; validation never checks sign. -/
theorem negative_debit_accepted :
    ((mkTransaction 7 "2024-02-02" "" "1000" (-5) 0 0 "" "unreconciled" "manual" "").validate)
        = (true, none) ∧
      (mkTransaction 7 "2024-02-02" "" "1000" (-5) 0 0 "" "unreconciled" "manual" "").debit = -5 ∧
      tmAddTransaction []
          (mkTransaction 7 "2024-02-02" "" "1000" (-5) 0 0 "" "unreconciled" "manual" "") =
        { ok := true,
          store := [mkTransaction 7 "2024-02-02" "" "1000" (-5) 0 0 "" "unreconciled" "manual" ""] } := by
  have hq5 : pyQuantize2 (-5 : ℚ) = -5 := by norm_num [pyQuantize2, roundHalfAway]
  have hq0 : pyQuantize2 (0 : ℚ) = 0 := by norm_num [pyQuantize2, roundHalfAway]
  have hval : (mkTransaction 7 "2024-02-02" "" "1000" (-5) 0 0 "" "unreconciled" "manual" "").validate
      = (true, none) := by
    simp [mkTransaction, Transaction.validate, hq5, hq0]
  refine ⟨hval, by simp [mkTransaction, hq5], ?_⟩
  simp [tmAddTransaction, hval]

/-- An account record of the chart of accounts, as stored by the database
(`src/data/database.py`): a flat record with a code, a type string and a
running balance. -/
structure AccountRec where
  code : String
  atype : String
  balance : ℚ
deriving Repr, DecidableEq

/-- The chart of accounts is the stored list of account records. -/
abbrev Chart := List AccountRec

/-- Model of `Ledger.get_account_by_code` (`src/core/ledger.py`): linear scan
returning the first account whose code matches. -/
def getAccountByCode (code : String) : Chart → Option AccountRec
  | [] => none
  | a :: rest => if a.code = code then some a else getAccountByCode code rest

/-- Model of `Ledger._update_account_balance` (`src/core/ledger.py`): add
`amount_change` to the balance of the first account with the given code;
if no account matches, the chart is left unchanged (the Python logs an error
and returns `False`).  Note that the delta is added directly — the
`Account.debit`/`Account.credit` sign convention is not consulted. -/
def updateAccountBalance (code : String) (delta : ℚ) : Chart → Chart
  | [] => []
  | a :: rest =>
    if a.code = code then { a with balance := a.balance + delta } :: rest
    else a :: updateAccountBalance code delta rest

/-- The in-memory state a `Ledger` operates on: the chart of accounts and the
stored transaction log (in storage order). -/
structure LedgerState where
  chart : Chart
  txs : List Transaction
deriving Repr, DecidableEq

/-- Model of `Ledger.add_transaction`: fail if the referenced account does not
exist; otherwise append the transaction to the log and add `debit − credit`
to the account's balance. -/
def ledgerAddTransaction (s : LedgerState) (t : Transaction) :
    Except String LedgerState :=
  match getAccountByCode t.account s.chart with
  | none => .error ("account not found: " ++ t.account)
  | some _ =>
      .ok { chart := updateAccountBalance t.account (t.debit - t.credit) s.chart
            txs := s.txs ++ [t] }

/-- First transaction in the log with the given id (the lookup loop in
`Ledger.update_transaction` / `Ledger.delete_transaction`). -/
def findTransaction (id : Nat) : List Transaction → Option Transaction
  | [] => none
  | t :: rest => if t.id = id then some t else findTransaction id rest

/-- Model of `Database.update_transaction`: replace the first transaction with
the given id by the new record, forcing the stored id to be the old one. -/
def replaceTransaction (id : Nat) (nt : Transaction) :
    List Transaction → List Transaction
  | [] => []
  | t :: rest =>
    if t.id = id then { nt with id := id } :: rest
    else t :: replaceTransaction id nt rest

/-- Model of `Database.delete_transaction`: remove the first transaction with
the given id. -/
def removeTransaction (id : Nat) : List Transaction → List Transaction
  | [] => []
  | t :: rest => if t.id = id then rest else t :: removeTransaction id rest

/-- Model of `Ledger.update_transaction`: fail if no transaction has the id;
otherwise replace the stored record, reverse the old record's
`debit − credit` delta and apply the new record's delta. -/
def ledgerUpdateTransaction (s : LedgerState) (id : Nat) (nt : Transaction) :
    Except String LedgerState :=
  match findTransaction id s.txs with
  | none => .error ("transaction not found")
  | some old =>
      let chart1 := updateAccountBalance old.account (-(old.debit - old.credit)) s.chart
      let chart2 := updateAccountBalance nt.account (nt.debit - nt.credit) chart1
      .ok { chart := chart2, txs := replaceTransaction id nt s.txs }

/-- Model of `Ledger.delete_transaction`: fail if no transaction has the id;
otherwise remove the stored record and reverse its delta. -/
def ledgerDeleteTransaction (s : LedgerState) (id : Nat) :
    Except String LedgerState :=
  match findTransaction id s.txs with
  | none => .error ("transaction not found")
  | some t =>
      .ok { chart := updateAccountBalance t.account (-(t.debit - t.credit)) s.chart
            txs := removeTransaction id s.txs }

/-- Zero every balance of the chart (the first phase of `Ledger.refresh`). -/
def zeroChart (c : Chart) : Chart :=
  c.map fun a => { a with balance := 0 }

/-- One replay step of `Ledger.refresh`: apply a stored transaction's
`debit − credit` delta. -/
def replayStep (c : Chart) (t : Transaction) : Chart :=
  updateAccountBalance t.account (t.debit - t.credit) c

/-- Model of `Ledger.refresh` (`src/core/ledger.py`): zero every account
balance, then replay every stored transaction's delta in storage order. -/
def refreshChart (s : LedgerState) : Chart :=
  s.txs.foldl replayStep (zeroChart s.chart)

/-- The ledger state after `Ledger.refresh`. -/
def ledgerRefresh (s : LedgerState) : LedgerState :=
  { chart := refreshChart s, txs := s.txs }

/-- A transaction-mutating ledger operation, as in claim C1. -/
inductive LedgerOp where
  | add (t : Transaction)
  | update (id : Nat) (t : Transaction)
  | delete (id : Nat)
deriving Repr

/-- Apply one operation; a raised `ValueError` leaves the state unchanged
(the exception propagates before any mutation in the Python). -/
def applyOp (s : LedgerState) : LedgerOp → LedgerState
  | .add t =>
    match ledgerAddTransaction s t with
    | .ok s' => s'
    | .error _ => s
  | .update id t =>
    match ledgerUpdateTransaction s id t with
    | .ok s' => s'
    | .error _ => s
  | .delete id =>
    match ledgerDeleteTransaction s id with
    | .ok s' => s'
    | .error _ => s

/-- Apply a sequence of ledger operations in order. -/
def applyOps (s : LedgerState) (ops : List LedgerOp) : LedgerState :=
  ops.foldl applyOp s

lemma updAB_cons_pos {a : AccountRec} {k : String} (h : a.code = k) (δ : ℚ) (l : Chart) :
    updateAccountBalance k δ (a :: l) = { a with balance := a.balance + δ } :: l := by
  simp [updateAccountBalance, h]

lemma updAB_cons_neg {a : AccountRec} {k : String} (h : ¬a.code = k) (δ : ℚ) (l : Chart) :
    updateAccountBalance k δ (a :: l) = a :: updateAccountBalance k δ l := by
  simp [updateAccountBalance, h]

lemma zeroChart_updateAccountBalance (code : String) (δ : ℚ) (c : Chart) :
    zeroChart (updateAccountBalance code δ c) = zeroChart c := by
  induction c with
  | nil => rfl
  | cons a rest ih =>
      by_cases h : a.code = code
      · rw [updAB_cons_pos h]
        rfl
      · rw [updAB_cons_neg h]
        simp only [zeroChart, List.map_cons] at ih ⊢
        rw [ih]

lemma updateAccountBalance_add (code : String) (δ₁ δ₂ : ℚ) (c : Chart) :
    updateAccountBalance code δ₁ (updateAccountBalance code δ₂ c) =
      updateAccountBalance code (δ₂ + δ₁) c := by
  induction c with
  | nil => rfl
  | cons a rest ih =>
      by_cases h : a.code = code
      · rw [updAB_cons_pos h, updAB_cons_pos (a := { a with balance := a.balance + δ₂ }) h,
          updAB_cons_pos h]
        simp [add_assoc]
      · rw [updAB_cons_neg h, updAB_cons_neg h, updAB_cons_neg h, ih]

lemma updateAccountBalance_zero (code : String) (c : Chart) :
    updateAccountBalance code 0 c = c := by
  induction c with
  | nil => rfl
  | cons a rest ih =>
      by_cases h : a.code = code
      · rw [updAB_cons_pos h]
        simp
      · rw [updAB_cons_neg h, ih]

lemma updateAccountBalance_comm (c₁ c₂ : String) (δ₁ δ₂ : ℚ) (c : Chart) :
    updateAccountBalance c₁ δ₁ (updateAccountBalance c₂ δ₂ c) =
      updateAccountBalance c₂ δ₂ (updateAccountBalance c₁ δ₁ c) := by
  by_cases hc : c₁ = c₂
  · subst hc
    rw [updateAccountBalance_add, updateAccountBalance_add, add_comm]
  · induction c with
    | nil => rfl
    | cons a rest ih =>
        by_cases h1 : a.code = c₁
        · have h2 : ¬a.code = c₂ := fun hh => hc (h1.symm.trans hh)
          rw [updAB_cons_neg h2, updAB_cons_pos h1, updAB_cons_pos h1,
            updAB_cons_neg (a := { a with balance := a.balance + δ₁ }) h2]
        · by_cases h2 : a.code = c₂
          · rw [updAB_cons_pos h2, updAB_cons_neg h1, updAB_cons_pos h2,
              updAB_cons_neg (a := { a with balance := a.balance + δ₂ }) h1]
          · rw [updAB_cons_neg h2, updAB_cons_neg h1, updAB_cons_neg h1,
              updAB_cons_neg h2, ih]

lemma foldl_replayStep_updateAccountBalance (a : String) (δ : ℚ) (c : Chart)
    (ts : List Transaction) :
    List.foldl replayStep (updateAccountBalance a δ c) ts =
      updateAccountBalance a δ (List.foldl replayStep c ts) := by
  induction ts generalizing c with
  | nil => rfl
  | cons t rest ih =>
      simp only [List.foldl_cons]
      rw [show replayStep (updateAccountBalance a δ c) t =
            updateAccountBalance a δ (replayStep c t) from
          updateAccountBalance_comm _ _ _ _ c, ih]

lemma zeroChart_of_zero {c : Chart} (h : ∀ x ∈ c, x.balance = 0) :
    zeroChart c = c := by
  induction c with
  | nil => rfl
  | cons a rest ih =>
      have ha : a.balance = 0 := h a (by simp)
      have hr : zeroChart rest = rest := ih fun x hx => h x (by simp [hx])
      calc zeroChart (a :: rest) = { a with balance := 0 } :: zeroChart rest := rfl
        _ = { a with balance := a.balance } :: rest := by rw [hr, ha]
        _ = a :: rest := rfl

lemma findTransaction_decomp {id : Nat} {ts : List Transaction} {old : Transaction}
    (h : findTransaction id ts = some old) :
    ∃ l₁ l₂, ts = l₁ ++ old :: l₂ ∧
      (∀ nt, replaceTransaction id nt ts = l₁ ++ { nt with id := id } :: l₂) ∧
      removeTransaction id ts = l₁ ++ l₂ := by
  induction ts with
  | nil => simp [findTransaction] at h
  | cons t rest ih =>
      by_cases ht : t.id = id
      · refine ⟨[], rest, ?_, ?_, ?_⟩
        · simp only [findTransaction, if_pos ht] at h
          simp [← Option.some_inj.mp h]
        · intro nt
          simp [replaceTransaction, if_pos ht]
        · simp [removeTransaction, if_pos ht]
      · simp only [findTransaction, if_neg ht] at h
        obtain ⟨l₁, l₂, he, hr, hd⟩ := ih h
        exact ⟨t :: l₁, l₂, by simp [he],
          fun nt => by simp [replaceTransaction, if_neg ht, hr nt],
          by simp [removeTransaction, if_neg ht, hd]⟩

/-- The balance invariant: the incrementally maintained chart coincides with
the chart recomputed from scratch by `refresh`. -/
def BalancesConsistent (s : LedgerState) : Prop :=
  s.chart = refreshChart s

lemma balancesConsistent_applyOp {s : LedgerState} (h : BalancesConsistent s)
    (op : LedgerOp) : BalancesConsistent (applyOp s op) := by
  unfold BalancesConsistent at h
  cases op with
  | add t =>
      cases hacc : getAccountByCode t.account s.chart with
      | none =>
          unfold BalancesConsistent
          simp only [applyOp, ledgerAddTransaction, hacc]
          exact h
      | some a =>
          unfold BalancesConsistent
          simp only [applyOp, ledgerAddTransaction, hacc]
          unfold refreshChart
          simp only [List.foldl_append, List.foldl_cons, List.foldl_nil,
            zeroChart_updateAccountBalance]
          rw [show List.foldl replayStep (zeroChart s.chart) s.txs = s.chart from h.symm]
          rfl
  | update id nt =>
      cases hf : findTransaction id s.txs with
      | none =>
          unfold BalancesConsistent
          simp only [applyOp, ledgerUpdateTransaction, hf]
          exact h
      | some old =>
          obtain ⟨l₁, l₂, he, hr, -⟩ := findTransaction_decomp hf
          unfold BalancesConsistent
          simp only [applyOp, ledgerUpdateTransaction, hf]
          unfold refreshChart
          simp only [hr nt, zeroChart_updateAccountBalance]
          rw [List.foldl_append, List.foldl_cons]
          have hstep : replayStep (List.foldl replayStep (zeroChart s.chart) l₁)
                { nt with id := id } =
              updateAccountBalance nt.account (nt.debit - nt.credit)
                (updateAccountBalance old.account (-(old.debit - old.credit))
                  (replayStep (List.foldl replayStep (zeroChart s.chart) l₁) old)) := by
            unfold replayStep
            rw [updateAccountBalance_add, add_neg_cancel, updateAccountBalance_zero]
          rw [hstep, foldl_replayStep_updateAccountBalance,
            foldl_replayStep_updateAccountBalance, ← List.foldl_cons, ← List.foldl_append,
            ← he]
          rw [show List.foldl replayStep (zeroChart s.chart) s.txs = s.chart from h.symm]
  | delete id =>
      cases hf : findTransaction id s.txs with
      | none =>
          unfold BalancesConsistent
          simp only [applyOp, ledgerDeleteTransaction, hf]
          exact h
      | some old =>
          obtain ⟨l₁, l₂, he, -, hd⟩ := findTransaction_decomp hf
          unfold BalancesConsistent
          simp only [applyOp, ledgerDeleteTransaction, hf]
          unfold refreshChart
          simp only [hd, zeroChart_updateAccountBalance]
          rw [List.foldl_append]
          have hstep : List.foldl replayStep (zeroChart s.chart) l₁ =
              updateAccountBalance old.account (-(old.debit - old.credit))
                (replayStep (List.foldl replayStep (zeroChart s.chart) l₁) old) := by
            unfold replayStep
            rw [updateAccountBalance_add, add_neg_cancel, updateAccountBalance_zero]
          rw [hstep, foldl_replayStep_updateAccountBalance, ← List.foldl_cons,
            ← List.foldl_append, ← he]
          rw [show List.foldl replayStep (zeroChart s.chart) s.txs = s.chart from h.symm]

lemma balancesConsistent_applyOps {s : LedgerState} (h : BalancesConsistent s)
    (ops : List LedgerOp) : BalancesConsistent (applyOps s ops) := by
  induction ops generalizing s with
  | nil => exact h
  | cons op rest ih => exact ih (balancesConsistent_applyOp h op)

/-- Claim C1 — Balance equivalence: starting from a chart whose balances are
all zero and an empty transaction log, after any sequence of
`add_transaction` / `update_transaction` / `delete_transaction` operations the
incrementally maintained balances coincide, for every account, with the chart
produced by `Ledger.refresh` (zero every balance, then replay every stored
transaction's debit−credit delta in storage order) over the same final
transaction log. -/
theorem balance_equivalence (chart₀ : Chart) (ops : List LedgerOp)
    (hzero : ∀ a ∈ chart₀, a.balance = 0) :
    (ledgerRefresh (applyOps ⟨chart₀, []⟩ ops)).chart =
      (applyOps ⟨chart₀, []⟩ ops).chart := by
  have hinit : BalancesConsistent ⟨chart₀, []⟩ := by
    unfold BalancesConsistent refreshChart
    simp [zeroChart_of_zero hzero]
  exact (balancesConsistent_applyOps hinit ops).symm

/-- Witness for C1: a concrete run (an add, an update of it, and a delete of a
missing id) on a two-account chart with zero balances.  Transaction fields in
constructor order: id, date, description, account, debit, credit, vat,
document_number, status, transaction_type, notes. -/
theorem balance_equivalence_witness :
    (∀ a ∈ ([{ code := "1000", atype := "asset", balance := 0 },
        { code := "2000", atype := "liability", balance := 0 }] : Chart), a.balance = 0) ∧
      (ledgerRefresh (applyOps ⟨[{ code := "1000", atype := "asset", balance := 0 },
          { code := "2000", atype := "liability", balance := 0 }], []⟩
        [LedgerOp.add ⟨1, "2024-01-01", "", "1000", 100, 0, 0, "", "unreconciled", "manual", ""⟩,
         LedgerOp.update 1 ⟨1, "2024-01-02", "", "2000", 0, 40, 0, "", "unreconciled", "manual", ""⟩,
         LedgerOp.delete 5])).chart =
      (applyOps ⟨[{ code := "1000", atype := "asset", balance := 0 },
          { code := "2000", atype := "liability", balance := 0 }], []⟩
        [LedgerOp.add ⟨1, "2024-01-01", "", "1000", 100, 0, 0, "", "unreconciled", "manual", ""⟩,
         LedgerOp.update 1 ⟨1, "2024-01-02", "", "2000", 0, 40, 0, "", "unreconciled", "manual", ""⟩,
         LedgerOp.delete 5]).chart :=
  ⟨by intro a ha; rcases List.mem_cons.mp ha with h | h <;> simp_all,
    balance_equivalence _ _
      (by intro a ha; rcases List.mem_cons.mp ha with h | h <;> simp_all)⟩

lemma getAccountByCode_updateAccountBalance (k : String) (δ : ℚ) (c : Chart) :
    getAccountByCode k (updateAccountBalance k δ c) =
      (getAccountByCode k c).map fun a => { a with balance := a.balance + δ } := by
  induction c with
  | nil => rfl
  | cons a rest ih =>
      by_cases h : a.code = k
      · rw [updAB_cons_pos h]
        simp [getAccountByCode, h]
      · rw [updAB_cons_neg h]
        simp [getAccountByCode, h, ih]

/-- Counterexample for C2: account "2000" is a liability account with balance
0; adding a transaction with debit 5 and credit 0 *increases* its balance to
5, whereas the claimed sign convention (debiting a liability account
decreases its balance) would give −5. -/
theorem add_transaction_sign_counterexample :
    ledgerAddTransaction
        ⟨[{ code := "2000", atype := "liability", balance := 0 }], []⟩
        ⟨1, "2024-01-01", "", "2000", 5, 0, 0, "", "unreconciled", "manual", ""⟩ =
      Except.ok
        ⟨[{ code := "2000", atype := "liability", balance := 5 }],
         [⟨1, "2024-01-01", "", "2000", 5, 0, 0, "", "unreconciled", "manual", ""⟩]⟩ ∧
      (5 : ℚ) ≠ 0 - 5 := by
  constructor
  · norm_num [ledgerAddTransaction, getAccountByCode, updateAccountBalance]
  · norm_num

/-- Claim C2 (amended) — `Ledger.add_transaction` updates the referenced
existing account's balance by `debit − credit` uniformly, for every
account type: `Ledger._update_account_balance` adds the signed delta directly
to the stored balance and never consults the `Account.debit`/`Account.credit`
sign convention, so a debit increases the balance of liability, equity and
income accounts just as it does for asset and expense accounts. -/
theorem add_transaction_applies_raw_delta (s : LedgerState) (t : Transaction)
    (acc : AccountRec) (h : getAccountByCode t.account s.chart = some acc) :
    ledgerAddTransaction s t =
      Except.ok
        { chart := updateAccountBalance t.account (t.debit - t.credit) s.chart
          txs := s.txs ++ [t] } ∧
      getAccountByCode t.account
          (updateAccountBalance t.account (t.debit - t.credit) s.chart) =
        some { acc with balance := acc.balance + (t.debit - t.credit) } := by
  refine ⟨by simp [ledgerAddTransaction, h], ?_⟩
  rw [getAccountByCode_updateAccountBalance, h]
  rfl

/-- Witness for C2 (amended): adding a debit of 7 to equity account "3000"
with balance 0 yields balance 7 = 0 + (7 − 0). -/
theorem add_transaction_applies_raw_delta_witness :
    getAccountByCode "3000"
        ([{ code := "3000", atype := "equity", balance := 0 }] : Chart) =
      some { code := "3000", atype := "equity", balance := 0 } ∧
      getAccountByCode "3000"
          (updateAccountBalance "3000" ((7 : ℚ) - 0)
            [{ code := "3000", atype := "equity", balance := 0 }]) =
        some { code := "3000", atype := "equity", balance := 0 + ((7 : ℚ) - 0) } :=
  ⟨by simp [getAccountByCode],
    (add_transaction_applies_raw_delta
      ⟨[{ code := "3000", atype := "equity", balance := 0 }], []⟩
      ⟨2, "2024-01-01", "", "3000", 7, 0, 0, "", "unreconciled", "manual", ""⟩
      { code := "3000", atype := "equity", balance := 0 }
      (by simp [getAccountByCode])).2⟩

/-- Calendar date as a (year, month, day) triple, ordered lexicographically
as Python `datetime` objects are. -/
abbrev Date := Nat × Nat × Nat

/-- Lexicographic order on dates. -/
def dateLe (a b : Date) : Prop :=
  a.1 < b.1 ∨ (a.1 = b.1 ∧ (a.2.1 < b.2.1 ∨ (a.2.1 = b.2.1 ∧ a.2.2 ≤ b.2.2)))

instance (a b : Date) : Decidable (dateLe a b) := by
  unfold dateLe
  infer_instance

/-- Model of `datetime.strptime(s, "%Y-%m-%d")` as used by
`Ledger.get_transactions_by_date_range`: a date string parses when it has
three dash-separated decimal components within calendar bounds; otherwise the
Python raises `ValueError` (here: `none`). -/
def parseDate (s : String) : Option Date :=
  match s.splitOn ("-") with
  | [y, m, d] =>
    match y.toNat?, m.toNat?, d.toNat? with
    | some yn, some mn, some dn =>
        if 1 ≤ mn ∧ mn ≤ 12 ∧ 1 ≤ dn ∧ dn ≤ 31 then some (yn, mn, dn) else none
    | _, _, _ => none
  | _ => none

/-- Model of `Ledger.get_transactions_by_date_range`: keep the transactions
whose date parses and falls inside the inclusive range; transactions with an
unparseable date are silently skipped. -/
def transactionsByDateRange (s e : Date) (txs : List Transaction) :
    List Transaction :=
  txs.filter fun t =>
    match parseDate t.date with
    | some d => decide (dateLe s d) && decide (dateLe d e)
    | none => false

/-- The nine boxes of the UK VAT return as accumulated by
`Ledger.calculate_vat_return`. -/
structure VatReturn where
  vat_due_sales : ℚ
  vat_due_acquisitions : ℚ
  total_vat_due : ℚ
  vat_reclaimed : ℚ
  net_vat_due : ℚ
  total_sales_ex_vat : ℚ
  total_purchases_ex_vat : ℚ
  total_supplies_ex_vat : ℚ
  total_acquisitions_ex_vat : ℚ
deriving Repr, DecidableEq

/-- The all-zero VAT return the accumulation loop starts from. -/
def vatZero : VatReturn := ⟨0, 0, 0, 0, 0, 0, 0, 0, 0⟩

/-- Box-1 update of the accumulation loop: credits to account 2100. -/
def vatStep1 (v : VatReturn) (t : Transaction) : VatReturn :=
  if t.account = "2100" ∧ 0 < t.credit then
    { v with vat_due_sales := v.vat_due_sales + t.credit } else v

/-- Box-4 update of the accumulation loop: debits to account 2200. -/
def vatStep4 (v : VatReturn) (t : Transaction) : VatReturn :=
  if t.account = "2200" ∧ 0 < t.debit then
    { v with vat_reclaimed := v.vat_reclaimed + t.debit } else v

/-- Box-6 update of the accumulation loop: credits to income accounts
(code prefix "4"). -/
def vatStep6 (v : VatReturn) (t : Transaction) : VatReturn :=
  if t.account.startsWith ("4") ∧ 0 < t.credit then
    { v with total_sales_ex_vat := v.total_sales_ex_vat + t.credit } else v

/-- Box-7 update of the accumulation loop: debits to expense accounts
(code prefix "5"). -/
def vatStep7 (v : VatReturn) (t : Transaction) : VatReturn :=
  if t.account.startsWith ("5") ∧ 0 < t.debit then
    { v with total_purchases_ex_vat := v.total_purchases_ex_vat + t.debit } else v

/-- One iteration of the accumulation loop of `Ledger.calculate_vat_return`:
the four independent box updates applied in source order. -/
def vatStep (v : VatReturn) (t : Transaction) : VatReturn :=
  vatStep7 (vatStep6 (vatStep4 (vatStep1 v t) t) t) t

/-- Round every (monetary) field of the VAT return to two decimal places —
the final loop of `Ledger.calculate_vat_return`. -/
def vatRound (v : VatReturn) : VatReturn :=
  ⟨pyRound2 v.vat_due_sales, pyRound2 v.vat_due_acquisitions, pyRound2 v.total_vat_due,
   pyRound2 v.vat_reclaimed, pyRound2 v.net_vat_due, pyRound2 v.total_sales_ex_vat,
   pyRound2 v.total_purchases_ex_vat, pyRound2 v.total_supplies_ex_vat,
   pyRound2 v.total_acquisitions_ex_vat⟩

/-- Model of `Ledger.calculate_vat_return` (`src/core/ledger.py`): filter the
transactions to the period, accumulate boxes 1, 4, 6, 7 over them, derive
box 3 = box 1 + box 2 and box 5 = box 3 − box 4, and finally round every
value to two decimal places. -/
def calculateVatReturn (s e : Date) (txs : List Transaction) : VatReturn :=
  let filtered := transactionsByDateRange s e txs
  let v := filtered.foldl vatStep vatZero
  let v := { v with total_vat_due := v.vat_due_sales + v.vat_due_acquisitions }
  let v := { v with net_vat_due := v.total_vat_due - v.vat_reclaimed }
  vatRound v

/-- Spec-side box 1: the sum of credits to account 2100 over a transaction
list. -/
def sumCredits2100 (ts : List Transaction) : ℚ :=
  ((ts.filter fun t => decide (t.account = "2100" ∧ 0 < t.credit)).map
    fun t => t.credit).sum

/-- Spec-side box 4: the sum of debits to account 2200. -/
def sumDebits2200 (ts : List Transaction) : ℚ :=
  ((ts.filter fun t => decide (t.account = "2200" ∧ 0 < t.debit)).map
    fun t => t.debit).sum

/-- Spec-side box 6: the sum of credits to accounts whose code starts
with "4". -/
def sumCredits4x (ts : List Transaction) : ℚ :=
  ((ts.filter fun t => decide (t.account.startsWith ("4") ∧ 0 < t.credit)).map
    fun t => t.credit).sum

/-- Spec-side box 7: the sum of debits to accounts whose code starts
with "5". -/
def sumDebits5x (ts : List Transaction) : ℚ :=
  ((ts.filter fun t => decide (t.account.startsWith ("5") ∧ 0 < t.debit)).map
    fun t => t.debit).sum

lemma vatStep1_eq (v : VatReturn) (t : Transaction) :
    vatStep1 v t =
      { v with vat_due_sales := v.vat_due_sales +
          if t.account = "2100" ∧ 0 < t.credit then t.credit else 0 } := by
  by_cases h : t.account = "2100" ∧ 0 < t.credit <;> simp [vatStep1, h]

lemma vatStep4_eq (v : VatReturn) (t : Transaction) :
    vatStep4 v t =
      { v with vat_reclaimed := v.vat_reclaimed +
          if t.account = "2200" ∧ 0 < t.debit then t.debit else 0 } := by
  by_cases h : t.account = "2200" ∧ 0 < t.debit <;> simp [vatStep4, h]

lemma vatStep6_eq (v : VatReturn) (t : Transaction) :
    vatStep6 v t =
      { v with total_sales_ex_vat := v.total_sales_ex_vat +
          if t.account.startsWith ("4") ∧ 0 < t.credit then t.credit else 0 } := by
  by_cases h : t.account.startsWith ("4") ∧ 0 < t.credit <;> simp [vatStep6, h]

lemma vatStep7_eq (v : VatReturn) (t : Transaction) :
    vatStep7 v t =
      { v with total_purchases_ex_vat := v.total_purchases_ex_vat +
          if t.account.startsWith ("5") ∧ 0 < t.debit then t.debit else 0 } := by
  by_cases h : t.account.startsWith ("5") ∧ 0 < t.debit <;> simp [vatStep7, h]

lemma vatStep_eq (v : VatReturn) (t : Transaction) :
    vatStep v t =
      { v with
        vat_due_sales := v.vat_due_sales +
          if t.account = "2100" ∧ 0 < t.credit then t.credit else 0
        vat_reclaimed := v.vat_reclaimed +
          if t.account = "2200" ∧ 0 < t.debit then t.debit else 0
        total_sales_ex_vat := v.total_sales_ex_vat +
          if t.account.startsWith ("4") ∧ 0 < t.credit then t.credit else 0
        total_purchases_ex_vat := v.total_purchases_ex_vat +
          if t.account.startsWith ("5") ∧ 0 < t.debit then t.debit else 0 } := by
  unfold vatStep
  rw [vatStep1_eq, vatStep4_eq, vatStep6_eq, vatStep7_eq]

lemma sumCredits2100_cons (t : Transaction) (ts : List Transaction) :
    sumCredits2100 (t :: ts) =
      (if t.account = "2100" ∧ 0 < t.credit then t.credit else 0) + sumCredits2100 ts := by
  simp only [sumCredits2100, List.filter_cons]
  by_cases h : t.account = "2100" ∧ 0 < t.credit <;> simp [h]

lemma sumDebits2200_cons (t : Transaction) (ts : List Transaction) :
    sumDebits2200 (t :: ts) =
      (if t.account = "2200" ∧ 0 < t.debit then t.debit else 0) + sumDebits2200 ts := by
  simp only [sumDebits2200, List.filter_cons]
  by_cases h : t.account = "2200" ∧ 0 < t.debit <;> simp [h]

lemma sumCredits4x_cons (t : Transaction) (ts : List Transaction) :
    sumCredits4x (t :: ts) =
      (if t.account.startsWith ("4") ∧ 0 < t.credit then t.credit else 0) +
        sumCredits4x ts := by
  simp only [sumCredits4x, List.filter_cons]
  by_cases h : t.account.startsWith ("4") ∧ 0 < t.credit <;> simp [h]

lemma sumDebits5x_cons (t : Transaction) (ts : List Transaction) :
    sumDebits5x (t :: ts) =
      (if t.account.startsWith ("5") ∧ 0 < t.debit then t.debit else 0) +
        sumDebits5x ts := by
  simp only [sumDebits5x, List.filter_cons]
  by_cases h : t.account.startsWith ("5") ∧ 0 < t.debit <;> simp [h]

lemma vatFold_fields (ts : List Transaction) (v : VatReturn) :
    (ts.foldl vatStep v).vat_due_sales = v.vat_due_sales + sumCredits2100 ts ∧
      (ts.foldl vatStep v).vat_reclaimed = v.vat_reclaimed + sumDebits2200 ts ∧
      (ts.foldl vatStep v).total_sales_ex_vat = v.total_sales_ex_vat + sumCredits4x ts ∧
      (ts.foldl vatStep v).total_purchases_ex_vat =
        v.total_purchases_ex_vat + sumDebits5x ts ∧
      (ts.foldl vatStep v).vat_due_acquisitions = v.vat_due_acquisitions ∧
      (ts.foldl vatStep v).total_supplies_ex_vat = v.total_supplies_ex_vat ∧
      (ts.foldl vatStep v).total_acquisitions_ex_vat = v.total_acquisitions_ex_vat := by
  induction ts generalizing v with
  | nil =>
      simp [sumCredits2100, sumDebits2200, sumCredits4x, sumDebits5x]
  | cons t rest ih =>
      obtain ⟨i1, i2, i3, i4, i5, i6, i7⟩ := ih (vatStep v t)
      refine ⟨?_, ?_, ?_, ?_, ?_, ?_, ?_⟩
      · rw [List.foldl_cons, i1, vatStep_eq, sumCredits2100_cons]
        dsimp only
        ring
      · rw [List.foldl_cons, i2, vatStep_eq, sumDebits2200_cons]
        dsimp only
        ring
      · rw [List.foldl_cons, i3, vatStep_eq, sumCredits4x_cons]
        dsimp only
        ring
      · rw [List.foldl_cons, i4, vatStep_eq, sumDebits5x_cons]
        dsimp only
        ring
      · rw [List.foldl_cons, i5, vatStep_eq]
      · rw [List.foldl_cons, i6, vatStep_eq]
      · rw [List.foldl_cons, i7, vatStep_eq]

lemma pyRound2_zero : pyRound2 0 = 0 := by
  norm_num [pyRound2, roundHalfEven]

/-- Claim C4 — VAT return boxes: over the transactions of the period,
box 1 (`vat_due_sales`) is the sum of credits to account 2100, box 4
(`vat_reclaimed`) the sum of debits to account 2200, box 3 = box 1 + box 2,
box 5 = box 3 − box 4 (which may be negative), box 6 the sum of credits to
accounts with code prefix "4", box 7 the sum of debits to accounts with code
prefix "5"; boxes 2, 8 and 9 are zero (no EC lanes are ever populated); and
every output is rounded to two decimals once, at the end, not per
transaction. -/
theorem vat_return_boxes (s e : Date) (txs : List Transaction) :
    calculateVatReturn s e txs =
      { vat_due_sales := pyRound2 (sumCredits2100 (transactionsByDateRange s e txs))
        vat_due_acquisitions := 0
        total_vat_due := pyRound2 (sumCredits2100 (transactionsByDateRange s e txs) + 0)
        vat_reclaimed := pyRound2 (sumDebits2200 (transactionsByDateRange s e txs))
        net_vat_due := pyRound2 ((sumCredits2100 (transactionsByDateRange s e txs) + 0) -
          sumDebits2200 (transactionsByDateRange s e txs))
        total_sales_ex_vat := pyRound2 (sumCredits4x (transactionsByDateRange s e txs))
        total_purchases_ex_vat := pyRound2 (sumDebits5x (transactionsByDateRange s e txs))
        total_supplies_ex_vat := 0
        total_acquisitions_ex_vat := 0 } := by
  obtain ⟨f1, f2, f3, f4, f5, f6, f7⟩ :=
    vatFold_fields (transactionsByDateRange s e txs) vatZero
  unfold calculateVatReturn vatRound
  simp only [f1, f2, f3, f4, f5, f6, f7]
  simp [vatZero, pyRound2_zero]

lemma pyQuantize2_zero : pyQuantize2 0 = 0 := by
  norm_num [pyQuantize2, roundHalfAway]

/-- An invoice as seen by `InvoiceManager._create_invoice_transactions`
(`src/core/invoice.py`): type ("sales" or "purchase"), date, number, entity
name, the three aggregate amounts, and notes. -/
structure Invoice where
  itype : String
  date : String
  invoice_number : String
  entity_name : String
  net_amount : ℚ
  vat_amount : ℚ
  total_amount : ℚ
  notes : String
deriving Repr, DecidableEq

/-- Model of `InvoiceManager._create_invoice_transactions`
(`src/core/invoice.py`): the ordered list of transactions the posting emits.
Each leg is built with the `Transaction` constructor (`mkTransaction`); leg
ids are generated uuids in the source and modelled as 0 here.  The Turkish
descriptions ("Satış Faturası"/"Alış Faturası") are transliterated to
ASCII. -/
def createInvoiceTransactions (inv : Invoice) : List Transaction :=
  if inv.itype = "sales" then
    [mkTransaction 0 inv.date ("Satis Faturasi - " ++ inv.entity_name) "1200"
        inv.total_amount 0 0 inv.invoice_number "unreconciled" "invoice" inv.notes,
     mkTransaction 0 inv.date ("Satis Faturasi - " ++ inv.entity_name) "4000"
        0 inv.net_amount 0 inv.invoice_number "unreconciled" "invoice" inv.notes] ++
    (if 0 < inv.vat_amount then
      [mkTransaction 0 inv.date ("Satis Faturasi - " ++ inv.entity_name) "2100"
          0 inv.vat_amount inv.vat_amount inv.invoice_number "unreconciled" "invoice"
          inv.notes]
     else [])
  else if inv.itype = "purchase" then
    [mkTransaction 0 inv.date ("Alis Faturasi - " ++ inv.entity_name) "5000"
        inv.net_amount 0 0 inv.invoice_number "unreconciled" "invoice" inv.notes] ++
    (if 0 < inv.vat_amount then
      [mkTransaction 0 inv.date ("Alis Faturasi - " ++ inv.entity_name) "2200"
          inv.vat_amount 0 inv.vat_amount inv.invoice_number "unreconciled" "invoice"
          inv.notes]
     else []) ++
    [mkTransaction 0 inv.date ("Alis Faturasi - " ++ inv.entity_name) "2000"
        0 inv.total_amount 0 inv.invoice_number "unreconciled" "invoice" inv.notes]
  else []

/-- Claim C3 — Invoice posting recipe: for an invoice whose amounts are
two-decimal values (as all invoice totals are, being sums of item-level
rounded values), posting emits exactly the fixed recipe, every leg dated to
the invoice date, carrying the invoice number as document number, of type
"invoice": sales → debit 1200 for `total_amount`, credit 4000 for
`net_amount`, plus credit 2100 for `vat_amount` when `vat_amount > 0`;
purchase → debit 5000 for `net_amount`, plus debit 2200 for `vat_amount`
when `vat_amount > 0`, then credit 2000 for `total_amount`. -/
theorem invoice_posting_recipe (inv : Invoice)
    (hnet : pyQuantize2 inv.net_amount = inv.net_amount)
    (hvat : pyQuantize2 inv.vat_amount = inv.vat_amount)
    (htot : pyQuantize2 inv.total_amount = inv.total_amount) :
    (∀ t ∈ createInvoiceTransactions inv,
        t.document_number = inv.invoice_number ∧ t.date = inv.date ∧
          t.transaction_type = "invoice") ∧
      (inv.itype = "sales" →
        createInvoiceTransactions inv =
          [⟨0, inv.date, "Satis Faturasi - " ++ inv.entity_name, "1200",
              inv.total_amount, 0, 0, inv.invoice_number, "unreconciled", "invoice",
              inv.notes⟩,
           ⟨0, inv.date, "Satis Faturasi - " ++ inv.entity_name, "4000",
              0, inv.net_amount, 0, inv.invoice_number, "unreconciled", "invoice",
              inv.notes⟩] ++
          (if 0 < inv.vat_amount then
            [⟨0, inv.date, "Satis Faturasi - " ++ inv.entity_name, "2100",
                0, inv.vat_amount, inv.vat_amount, inv.invoice_number, "unreconciled",
                "invoice", inv.notes⟩]
           else [])) ∧
      (inv.itype = "purchase" →
        createInvoiceTransactions inv =
          [⟨0, inv.date, "Alis Faturasi - " ++ inv.entity_name, "5000",
              inv.net_amount, 0, 0, inv.invoice_number, "unreconciled", "invoice",
              inv.notes⟩] ++
          (if 0 < inv.vat_amount then
            [⟨0, inv.date, "Alis Faturasi - " ++ inv.entity_name, "2200",
                inv.vat_amount, 0, inv.vat_amount, inv.invoice_number, "unreconciled",
                "invoice", inv.notes⟩]
           else []) ++
          [⟨0, inv.date, "Alis Faturasi - " ++ inv.entity_name, "2000",
              0, inv.total_amount, 0, inv.invoice_number, "unreconciled", "invoice",
              inv.notes⟩]) := by
  have hsales : inv.itype = "sales" →
      createInvoiceTransactions inv =
        [⟨0, inv.date, "Satis Faturasi - " ++ inv.entity_name, "1200",
            inv.total_amount, 0, 0, inv.invoice_number, "unreconciled", "invoice",
            inv.notes⟩,
         ⟨0, inv.date, "Satis Faturasi - " ++ inv.entity_name, "4000",
            0, inv.net_amount, 0, inv.invoice_number, "unreconciled", "invoice",
            inv.notes⟩] ++
        (if 0 < inv.vat_amount then
          [⟨0, inv.date, "Satis Faturasi - " ++ inv.entity_name, "2100",
              0, inv.vat_amount, inv.vat_amount, inv.invoice_number, "unreconciled",
              "invoice", inv.notes⟩]
         else []) := by
    intro hs
    unfold createInvoiceTransactions
    rw [if_pos hs]
    simp [mkTransaction, hnet, hvat, htot, pyQuantize2_zero]
  have hpurch : inv.itype = "purchase" →
      createInvoiceTransactions inv =
        [⟨0, inv.date, "Alis Faturasi - " ++ inv.entity_name, "5000",
            inv.net_amount, 0, 0, inv.invoice_number, "unreconciled", "invoice",
            inv.notes⟩] ++
        (if 0 < inv.vat_amount then
          [⟨0, inv.date, "Alis Faturasi - " ++ inv.entity_name, "2200",
              inv.vat_amount, 0, inv.vat_amount, inv.invoice_number, "unreconciled",
              "invoice", inv.notes⟩]
         else []) ++
        [⟨0, inv.date, "Alis Faturasi - " ++ inv.entity_name, "2000",
            0, inv.total_amount, 0, inv.invoice_number, "unreconciled", "invoice",
            inv.notes⟩] := by
    intro hp
    have hs : ¬inv.itype = "sales" := by
      rw [hp]
      decide
    unfold createInvoiceTransactions
    rw [if_neg hs, if_pos hp]
    simp [mkTransaction, hnet, hvat, htot, pyQuantize2_zero]
  refine ⟨?_, hsales, hpurch⟩
  intro t ht
  by_cases hs : inv.itype = "sales"
  · rw [hsales hs] at ht
    by_cases hv : 0 < inv.vat_amount
    · rw [if_pos hv] at ht
      simp only [List.mem_append, List.mem_cons, List.not_mem_nil, or_false] at ht
      rcases ht with (rfl | rfl) | rfl <;> exact ⟨rfl, rfl, rfl⟩
    · rw [if_neg hv] at ht
      simp only [List.append_nil, List.mem_cons, List.not_mem_nil, or_false] at ht
      rcases ht with rfl | rfl <;> exact ⟨rfl, rfl, rfl⟩
  · by_cases hp : inv.itype = "purchase"
    · rw [hpurch hp] at ht
      by_cases hv : 0 < inv.vat_amount
      · rw [if_pos hv] at ht
        simp only [List.mem_append, List.mem_cons, List.not_mem_nil, or_false] at ht
        rcases ht with (rfl | rfl) | rfl <;> exact ⟨rfl, rfl, rfl⟩
      · rw [if_neg hv] at ht
        simp only [List.append_nil, List.mem_append, List.mem_cons,
          List.not_mem_nil, or_false] at ht
        rcases ht with rfl | rfl <;> exact ⟨rfl, rfl, rfl⟩
    · unfold createInvoiceTransactions at ht
      rw [if_neg hs, if_neg hp] at ht
      simp at ht

/-- Witness for C3: the spec's concrete sales scenario — net 100, VAT 20,
total 120 — posts exactly three legs: debit 1200/120, credit 4000/100,
credit 2100/20. -/
theorem invoice_posting_recipe_witness :
    pyQuantize2 (100 : ℚ) = 100 ∧ pyQuantize2 (20 : ℚ) = 20 ∧
      pyQuantize2 (120 : ℚ) = 120 ∧
      createInvoiceTransactions
          ⟨"sales", "2024-03-01", "INV-20240301-AAAA", "Acme", 100, 20, 120, ""⟩ =
        [⟨0, "2024-03-01", "Satis Faturasi - Acme", "1200", 120, 0, 0,
            "INV-20240301-AAAA", "unreconciled", "invoice", ""⟩,
         ⟨0, "2024-03-01", "Satis Faturasi - Acme", "4000", 0, 100, 0,
            "INV-20240301-AAAA", "unreconciled", "invoice", ""⟩,
         ⟨0, "2024-03-01", "Satis Faturasi - Acme", "2100", 0, 20, 20,
            "INV-20240301-AAAA", "unreconciled", "invoice", ""⟩] := by
  have hnet : pyQuantize2 (100 : ℚ) = 100 := by norm_num [pyQuantize2, roundHalfAway]
  have hvat : pyQuantize2 (20 : ℚ) = 20 := by norm_num [pyQuantize2, roundHalfAway]
  have htot : pyQuantize2 (120 : ℚ) = 120 := by norm_num [pyQuantize2, roundHalfAway]
  refine ⟨hnet, hvat, htot, ?_⟩
  have h := (invoice_posting_recipe
    ⟨"sales", "2024-03-01", "INV-20240301-AAAA", "Acme", 100, 20, 120, ""⟩
    hnet hvat htot).2.1 rfl
  rw [h]
  rfl

/-- Corporation-tax rate table entry (`CorporateTaxCalculator.tax_rates` in
`src/hmrc/corporate_tax.py`). -/
structure CtRates where
  small_profits_rate : ℚ
  main_rate : ℚ
  lower_limit : ℚ
  upper_limit : ℚ
deriving Repr, DecidableEq

/-- The single stored rate table, for tax year 2023-24. -/
def ctRates2324 : CtRates :=
  { small_profits_rate := 19/100, main_rate := 25/100
    lower_limit := 50000, upper_limit := 250000 }

/-- The marginal-relief branch of `calculate_corporation_tax` exactly as the
source computes it:
`tax_at_main_rate − (R − r) * (2 * (U − P) / (U − L)) * P`. -/
def marginalReliefTax (r : CtRates) (p : ℚ) : ℚ :=
  let r_diff := r.main_rate - r.small_profits_rate
  let u_l_diff := r.upper_limit - r.lower_limit
  let u_p_diff := r.upper_limit - p
  p * r.main_rate - r_diff * (2 * u_p_diff / u_l_diff) * p

/-- The three-branch tax-due computation of
`CorporateTaxCalculator.calculate_corporation_tax`
(`src/hmrc/corporate_tax.py`). -/
def corporationTaxDue (r : CtRates) (p : ℚ) : ℚ :=
  if p ≤ r.lower_limit then p * r.small_profits_rate
  else if r.upper_limit ≤ p then p * r.main_rate
  else marginalReliefTax r p

/-- The fields of the result dictionary of `calculate_corporation_tax` that
the claims are about. -/
structure CtResult where
  taxable_profit : ℚ
  tax_due : ℚ
  effective_rate : ℚ
deriving Repr, DecidableEq

/-- Model of `CorporateTaxCalculator.calculate_corporation_tax` given the
aggregated income and expense totals of the accounting period:
`taxable_profit = max(0, total_income − total_expenses)`, the three-branch
tax computation, `effective_rate = tax/profit*100` (0 for zero profit), all
rounded to two decimals in the result. -/
def calculateCorporationTax (r : CtRates) (total_income total_expenses : ℚ) :
    CtResult :=
  let p := max 0 (total_income - total_expenses)
  let tax := corporationTaxDue r p
  { taxable_profit := pyRound2 p
    tax_due := pyRound2 tax
    effective_rate := pyRound2 (if 0 < p then tax / p * 100 else 0) }

/-- Claim C5 — Corporation Tax formula: taxable profit is
`max(0, income − expenses)`; the tax due is `profit * small_rate` up to the
lower limit, `profit * main_rate` from the upper limit, and the marginal-
relief expression strictly in between; the effective rate is
`tax / profit * 100` (0 at zero profit); outputs are the two-decimal
roundings; and for the 2023-24 table, profit 50000 gives tax 9500.00 and
profit 250000 gives tax 62500.00. -/
theorem corporation_tax_formula (i e : ℚ) :
    (calculateCorporationTax ctRates2324 i e).taxable_profit =
        pyRound2 (max 0 (i - e)) ∧
      (calculateCorporationTax ctRates2324 i e).tax_due =
        pyRound2
          (if max 0 (i - e) ≤ 50000 then max 0 (i - e) * (19/100)
           else if (250000 : ℚ) ≤ max 0 (i - e) then max 0 (i - e) * (25/100)
           else max 0 (i - e) * (25/100) -
             (25/100 - 19/100) * (2 * (250000 - max 0 (i - e)) / (250000 - 50000)) *
               max 0 (i - e)) ∧
      (calculateCorporationTax ctRates2324 i e).effective_rate =
        pyRound2
          (if 0 < max 0 (i - e) then
            corporationTaxDue ctRates2324 (max 0 (i - e)) / max 0 (i - e) * 100
           else 0) ∧
      corporationTaxDue ctRates2324 50000 = 9500 ∧
      corporationTaxDue ctRates2324 250000 = 62500 := by
  refine ⟨rfl, ?_, rfl, ?_, ?_⟩
  · simp only [calculateCorporationTax, corporationTaxDue, marginalReliefTax, ctRates2324]
  · norm_num [corporationTaxDue, ctRates2324]
  · norm_num [corporationTaxDue, marginalReliefTax, ctRates2324]

/-- Counterexample for C6: the marginal-relief branch evaluated at the lower
limit yields 6500, not `lower_limit * small_rate = 9500` — the tax function
jumps down by 3000 as profit crosses the lower limit: tax(50000) = 9500 but
tax(50001) = 6500.1600006. -/
theorem corporation_tax_continuity_counterexample :
    marginalReliefTax ctRates2324 50000 = 6500 ∧
      (50000 : ℚ) * (19/100) = 9500 ∧
      marginalReliefTax ctRates2324 50000 ≠ 50000 * (19/100) ∧
      corporationTaxDue ctRates2324 50000 = 9500 ∧
      corporationTaxDue ctRates2324 50001 = 65001600006/10000000 ∧
      corporationTaxDue ctRates2324 50001 < corporationTaxDue ctRates2324 50000 := by
  refine ⟨?_, by norm_num, ?_, ?_, ?_, ?_⟩ <;>
    norm_num [marginalReliefTax, corporationTaxDue, ctRates2324]

/-- Claim C6 (amended) — Corporation Tax continuity holds only at the upper
band edge: for the 2023-24 table the marginal-relief branch evaluated at
`upper_limit` equals `upper_limit * main_rate` (no jump at 250000), but
evaluated at `lower_limit` it yields 6500 ≠ `lower_limit * small_rate = 9500`,
so `tax(profit)` has a downward jump discontinuity of 3000 at the lower
limit; on the open interval between the limits the tax due is exactly the
marginal-relief expression. -/
theorem corporation_tax_continuity_amended :
    marginalReliefTax ctRates2324 250000 = 250000 * (25/100) ∧
      corporationTaxDue ctRates2324 250000 = 250000 * (25/100) ∧
      marginalReliefTax ctRates2324 50000 = 6500 ∧
      corporationTaxDue ctRates2324 50000 = 50000 * (19/100) ∧
      marginalReliefTax ctRates2324 50000 ≠ 50000 * (19/100) ∧
      ∀ p : ℚ, 50000 < p → p < 250000 →
        corporationTaxDue ctRates2324 p = marginalReliefTax ctRates2324 p := by
  refine ⟨?_, ?_, ?_, ?_, ?_, ?_⟩
  · norm_num [marginalReliefTax, ctRates2324]
  · norm_num [corporationTaxDue, marginalReliefTax, ctRates2324]
  · norm_num [marginalReliefTax, ctRates2324]
  · norm_num [corporationTaxDue, ctRates2324]
  · norm_num [marginalReliefTax, ctRates2324]
  · intro p h1 h2
    have hn1 : ¬p ≤ ((50000 : ℚ)) := not_le.mpr h1
    have hn2 : ¬((250000 : ℚ)) ≤ p := not_le.mpr h2
    simp only [corporationTaxDue, ctRates2324]
    rw [if_neg hn1, if_neg hn2]

/-- Witness for C6 (amended): at profit 150000 the tax due is the marginal
relief expression. -/
theorem corporation_tax_continuity_amended_witness :
    (50000 : ℚ) < 150000 ∧ (150000 : ℚ) < 250000 ∧
      corporationTaxDue ctRates2324 150000 = marginalReliefTax ctRates2324 150000 :=
  ⟨by norm_num, by norm_num,
    corporation_tax_continuity_amended.2.2.2.2.2 150000 (by norm_num) (by norm_num)⟩

/-- Income-tax band table (`IncomeTaxCalculator.tax_bands` in
`src/hmrc/income_tax.py`). -/
structure ItBands where
  personal_allowance : ℚ
  basic_threshold : ℚ
  basic_rate : ℚ
  higher_threshold : ℚ
  higher_rate : ℚ
  additional_rate : ℚ
deriving Repr, DecidableEq

/-- The single stored band table, for tax year 2023-24. -/
def itBands2324 : ItBands :=
  { personal_allowance := 12570, basic_threshold := 50270, basic_rate := 20/100
    higher_threshold := 125140, higher_rate := 40/100, additional_rate := 45/100 }

/-- Dividend-tax rate table (`IncomeTaxCalculator.dividend_rates`); note the
source stores `0.085` for the basic dividend rate. -/
structure DividendRates where
  allowance : ℚ
  basic_rate : ℚ
  higher_rate : ℚ
  additional_rate : ℚ
deriving Repr, DecidableEq

/-- The single stored dividend rate table, for tax year 2023-24. -/
def divRates2324 : DividendRates :=
  { allowance := 1000, basic_rate := 85/1000, higher_rate := 3375/10000
    additional_rate := 3935/10000 }

/-- The three dividend band slices computed inside
`IncomeTaxCalculator._calculate_dividend_tax`. -/
structure DividendAllocation where
  div_basic : ℚ
  div_higher : ℚ
  div_additional : ℚ
deriving Repr, DecidableEq

/-- The band-allocation part of `IncomeTaxCalculator._calculate_dividend_tax`
(`src/hmrc/income_tax.py`), with the source's intermediate values:
`basic_limit`/`higher_limit` are thresholds less the personal allowance,
`remaining_basic_band = max(0, basic_limit − other)`,
`remaining_higher_band = max(0, higher_limit − max(0, other − basic_limit))`,
the taxable dividend is the income over the allowance, and the slices fill
basic, then higher, then additional. -/
def dividendAllocation (b : ItBands) (dr : DividendRates)
    (dividend_income other_taxable_income : ℚ) : DividendAllocation :=
  let basic_limit := b.basic_threshold - b.personal_allowance
  let higher_limit := b.higher_threshold - b.personal_allowance
  let remaining_basic_band := max 0 (basic_limit - other_taxable_income)
  let remaining_higher_band :=
    max 0 (higher_limit - max 0 (other_taxable_income - basic_limit))
  let taxable_dividend := max 0 (dividend_income - dr.allowance)
  let div_basic := min remaining_basic_band taxable_dividend
  let div_higher := min remaining_higher_band (max 0 (taxable_dividend - div_basic))
  let div_additional := max 0 (taxable_dividend - div_basic - div_higher)
  ⟨div_basic, div_higher, div_additional⟩

/-- Model of `IncomeTaxCalculator._calculate_dividend_tax`: zero for
non-positive dividend income, otherwise the slices taxed at the three
dividend rates. -/
def calculateDividendTax (b : ItBands) (dr : DividendRates)
    (dividend_income other_taxable_income : ℚ) : ℚ :=
  if dividend_income ≤ 0 then 0
  else
    let a := dividendAllocation b dr dividend_income other_taxable_income
    a.div_basic * dr.basic_rate + a.div_higher * dr.higher_rate +
      a.div_additional * dr.additional_rate

/-- Counterexample for C7: with no other income and dividends 151270
(taxable dividend 150270 after the £1000 allowance), the code allocates
112570 to the higher-rate slice — more than the higher band's entire width
112570 − 37700 = 74870 — and nothing to the additional band, because
`remaining_higher_band` is measured from zero instead of from the basic
limit. -/
theorem dividend_band_allocation_counterexample :
    (dividendAllocation itBands2324 divRates2324 151270 0).div_higher = 112570 ∧
      (itBands2324.higher_threshold - itBands2324.personal_allowance) -
          (itBands2324.basic_threshold - itBands2324.personal_allowance) = 74870 ∧
      ¬((dividendAllocation itBands2324 divRates2324 151270 0).div_higher ≤ 74870) ∧
      (dividendAllocation itBands2324 divRates2324 151270 0).div_additional = 0 := by
  refine ⟨?_, by norm_num [itBands2324], ?_, ?_⟩ <;>
    norm_num [dividendAllocation, itBands2324, divRates2324, max_def, min_def]

/-- Claim C7 (amended) — Dividend band allocation: for the 2023-24 table,
the basic-rate dividend slice is exactly
`min(max(0, 37700 − other), taxable dividend)` — so it never exceeds the
basic band's remaining headroom and dividends never occupy basic-band room
other income has consumed — but the higher-rate slice is only bounded by
`max(0, 112570 − max(0, other − 37700))`, the code's headroom measured from
zero rather than from the basic limit, which exceeds the higher band's
remaining width by up to the basic band size; the three slices always
exhaust the taxable dividend, and the dividend tax is the rate-weighted sum
of the slices (zero when dividend income is non-positive). -/
theorem dividend_band_allocation_amended (d o : ℚ) :
    (dividendAllocation itBands2324 divRates2324 d o).div_basic =
        min (max 0 (37700 - o)) (max 0 (d - 1000)) ∧
      (dividendAllocation itBands2324 divRates2324 d o).div_higher ≤
        max 0 (112570 - max 0 (o - 37700)) ∧
      (dividendAllocation itBands2324 divRates2324 d o).div_basic +
          (dividendAllocation itBands2324 divRates2324 d o).div_higher +
          (dividendAllocation itBands2324 divRates2324 d o).div_additional =
        max 0 (d - 1000) ∧
      calculateDividendTax itBands2324 divRates2324 d o =
        (if d ≤ 0 then 0
         else (dividendAllocation itBands2324 divRates2324 d o).div_basic * (85/1000) +
           (dividendAllocation itBands2324 divRates2324 d o).div_higher * (3375/10000) +
           (dividendAllocation itBands2324 divRates2324 d o).div_additional *
             (3935/10000)) := by
  have e1 : (50270 : ℚ) - 12570 = 37700 := by norm_num
  have e2 : (125140 : ℚ) - 12570 = 112570 := by norm_num
  simp only [dividendAllocation, calculateDividendTax, itBands2324, divRates2324, e1, e2]
  refine ⟨trivial, min_le_left _ _, ?_, trivial⟩
  have hb : min (max 0 (37700 - o)) (max 0 (d - 1000)) ≤ max 0 (d - 1000) :=
    min_le_right _ _
  have h1 : max 0 (max 0 (d - 1000) - min (max 0 (37700 - o)) (max 0 (d - 1000))) =
      max 0 (d - 1000) - min (max 0 (37700 - o)) (max 0 (d - 1000)) :=
    max_eq_right (sub_nonneg.mpr hb)
  rw [h1]
  have hh : min (max 0 (112570 - max 0 (o - 37700)))
        (max 0 (d - 1000) - min (max 0 (37700 - o)) (max 0 (d - 1000))) ≤
      max 0 (d - 1000) - min (max 0 (37700 - o)) (max 0 (d - 1000)) :=
    min_le_right _ _
  have h2 : max 0 (max 0 (d - 1000) - min (max 0 (37700 - o)) (max 0 (d - 1000)) -
        min (max 0 (112570 - max 0 (o - 37700)))
          (max 0 (d - 1000) - min (max 0 (37700 - o)) (max 0 (d - 1000)))) =
      max 0 (d - 1000) - min (max 0 (37700 - o)) (max 0 (d - 1000)) -
        min (max 0 (112570 - max 0 (o - 37700)))
          (max 0 (d - 1000) - min (max 0 (37700 - o)) (max 0 (d - 1000))) :=
    max_eq_right (by linarith)
  rw [h2]
  ring

/-- Model of Python `str.split("-")`, by structural recursion over the
character list. -/
def splitOnDashAux : List Char → List Char → List String
  | [], acc => [String.mk acc.reverse]
  | c :: rest, acc =>
    if c = '-' then String.mk acc.reverse :: splitOnDashAux rest []
    else splitOnDashAux rest (c :: acc)

/-- Model of Python `s.split("-")`. -/
def splitOnDash (s : String) : List String :=
  splitOnDashAux s.data []

/-- Model of Python `int(s)` for the non-negative year strings relevant here:
a non-empty all-digit string parses; anything else raises `ValueError`
(here: `none`). -/
def pyInt (s : String) : Option Nat :=
  if s.data ≠ [] ∧ s.data.all (fun c => c.isDigit) then
    some (s.data.foldl (fun n c => n * 10 + (c.toNat - 48)) 0)
  else none

/-- Model of `int(tax_year.split("-")[0])` as performed by
`IncomeTaxReturn._set_tax_year_dates` (`src/core/tax.py`); `split` never
returns an empty list, so only `ValueError` can occur. -/
def parseTaxYearStart (ty : String) : Option Nat :=
  match (splitOnDash ty).head? with
  | some y => pyInt y
  | none => none

/-- Lexicographic comparison of character lists (Python string `<=` is
code-point lexicographic). -/
def charListLe : List Char → List Char → Bool
  | [], _ => true
  | _ :: _, [] => false
  | a :: u, b :: v =>
    if a.toNat < b.toNat then true
    else if b.toNat < a.toNat then false
    else charListLe u v

/-- Model of Python string `<=` on "YYYY-MM-DD" date strings. -/
def pyStrLe (a b : String) : Bool :=
  charListLe a.data b.data

/-- The fields of `IncomeTaxReturn` (`src/core/tax.py`) used by the claims;
period dates are the strings the manager compares item dates against, and
are `none` when the tax-year string failed to parse. -/
structure IncomeTaxReturn where
  tax_year : String
  period_start : Option String
  period_end : Option String
  total_income : ℚ
  total_expenses : ℚ
  net_profit : ℚ
  tax_allowance : ℚ
  taxable_income : ℚ
  tax_due : ℚ
  status : String
deriving Repr, DecidableEq

/-- Model of `IncomeTaxReturn.__init__` with `_set_tax_year_dates`: on a
parse failure the error is only logged and the period dates remain unset;
all monetary fields start at zero and the status at "draft".  The UK tax
year runs 6 April to 5 April. -/
def mkIncomeTaxReturn (ty : String) : IncomeTaxReturn :=
  match parseTaxYearStart ty with
  | some y =>
      { tax_year := ty, period_start := some (toString y ++ "-04-06")
        period_end := some (toString (y + 1) ++ "-04-05")
        total_income := 0, total_expenses := 0, net_profit := 0, tax_allowance := 0
        taxable_income := 0, tax_due := 0, status := "draft" }
  | none =>
      { tax_year := ty, period_start := none, period_end := none
        total_income := 0, total_expenses := 0, net_profit := 0, tax_allowance := 0
        taxable_income := 0, tax_due := 0, status := "draft" }

/-- Model of `IncomeTaxReturn._calculate_tax`: 2022-23 progressive bands
(20% to 37700, 40% to 150000, 45% above), quantized half-up to two decimals;
zero for non-positive taxable income. -/
def incomeTaxReturnTax (taxable : ℚ) : ℚ :=
  if taxable ≤ 0 then 0
  else
    pyQuantize2
      (if taxable ≤ 37700 then taxable * (20/100)
       else 37700 * (20/100) +
         (if taxable ≤ 150000 then (taxable - 37700) * (40/100)
          else (150000 - 37700) * (40/100) + (taxable - 150000) * (45/100)))

/-- Model of `IncomeTaxReturn.calculate_totals`: net profit, taxable income
after the allowance, and the tax due. -/
def incomeTaxReturnTotals (tr : IncomeTaxReturn) : IncomeTaxReturn :=
  let np := tr.total_income - tr.total_expenses
  let ti := max 0 (np - tr.tax_allowance)
  { tr with net_profit := np, taxable_income := ti, tax_due := incomeTaxReturnTax ti }

/-- One row of `Ledger.get_income_expenses`: a dated income/expense amount. -/
structure IncomeItem where
  date : String
  income : ℚ
  expense : ℚ
deriving Repr, DecidableEq

/-- Model of `TaxManager.calculate_income_tax_return` (`src/core/tax.py`):
build the return for the tax year; if the period dates are unset (malformed
tax year) the zero-valued return is handed back as-is, with no error;
otherwise sum the period's income and expenses, set the £12570 allowance and
compute the totals. -/
def taxManagerCalcIncomeTaxReturn (ty : String) (items : List IncomeItem) :
    IncomeTaxReturn :=
  let tr := mkIncomeTaxReturn ty
  match tr.period_start, tr.period_end with
  | some sd, some ed =>
      let period_items :=
        items.filter fun it => pyStrLe sd it.date && pyStrLe it.date ed
      let ti := (period_items.map fun it => it.income).sum
      let te := (period_items.map fun it => it.expense).sum
      incomeTaxReturnTotals
        { tr with total_income := ti, total_expenses := te, tax_allowance := 12570 }
  | _, _ => tr

/-- The result fields of `IncomeTaxCalculator.calculate_income_tax`
(`src/hmrc/income_tax.py`) relevant to the claims. -/
structure ItResult where
  total_income : ℚ
  taxable_income : ℚ
  personal_allowance : ℚ
  taxable_after_allowance : ℚ
  basic_band : ℚ
  higher_band : ℚ
  additional_band : ℚ
  income_tax : ℚ
  dividend_tax : ℚ
  total_income_tax : ℚ
deriving Repr, DecidableEq

/-- The income data dictionary consumed by `calculate_income_tax`. -/
structure IncomeData where
  employment_income : ℚ
  self_employment_income : ℚ
  property_income : ℚ
  dividends : ℚ
  pension_contributions : ℚ
  gift_aid_donations : ℚ
  other_deductions : ℚ
deriving Repr, DecidableEq

/-- Model of `IncomeTaxCalculator.calculate_income_tax` for its single rate
table: an unknown tax year raises `ValueError` (here `Except.error`);
otherwise income is summed, the personal allowance tapers £1 per £2 of total
income above £100000 (floored at zero), bands are filled bottom-up and taxed,
and dividend tax is computed separately over
`taxable_after_allowance − dividends` as the other income. -/
def hmrcCalculateIncomeTax (ty : String) (d : IncomeData) :
    Except String ItResult :=
  if ty = "2023-24" then
    let total_income := d.employment_income + d.self_employment_income +
      d.property_income + d.dividends
    let total_deductions := d.pension_contributions + d.gift_aid_donations +
      d.other_deductions
    let taxable_income := max 0 (total_income - total_deductions)
    let personal_allowance :=
      if 100000 < total_income then
        12570 - min 12570 ((total_income - 100000) / 2)
      else (12570 : ℚ)
    let taxable_after_allowance := max 0 (taxable_income - personal_allowance)
    let basic_band := min (50270 - 12570) taxable_after_allowance
    let higher_band := min (125140 - 50270) (max 0 (taxable_after_allowance - basic_band))
    let additional_band := max 0 (taxable_after_allowance - basic_band - higher_band)
    let total_tax := basic_band * (20/100) + higher_band * (40/100) +
      additional_band * (45/100)
    let dividend_tax := calculateDividendTax itBands2324 divRates2324 d.dividends
      (taxable_after_allowance - d.dividends)
    .ok
      { total_income := pyRound2 total_income
        taxable_income := pyRound2 taxable_income
        personal_allowance := pyRound2 personal_allowance
        taxable_after_allowance := pyRound2 taxable_after_allowance
        basic_band := pyRound2 basic_band
        higher_band := pyRound2 higher_band
        additional_band := pyRound2 additional_band
        income_tax := pyRound2 total_tax
        dividend_tax := pyRound2 dividend_tax
        total_income_tax := pyRound2 (total_tax + dividend_tax) }
  else .error ("tax rates not found for tax year: " ++ ty)

/-- Counterexample for C9: `TaxManager.calculate_income_tax_return` on the
malformed tax-year string "bad-23", over a ledger that does contain income,
returns — with no error — an `IncomeTaxReturn` whose period dates are unset
and whose every monetary field is zero. -/
theorem income_tax_return_silent_zero_counterexample :
    taxManagerCalcIncomeTaxReturn "bad-23" [⟨"2023-06-01", 100, 0⟩] =
      { tax_year := "bad-23", period_start := none, period_end := none
        total_income := 0, total_expenses := 0, net_profit := 0, tax_allowance := 0
        taxable_income := 0, tax_due := 0, status := "draft" } := by
  rfl

/-- Claim C9 (amended) — Calculator failure semantics: the HMRC Income Tax
calculator rejects an unknown tax-year string with an explicit error, but
`TaxManager.calculate_income_tax_return` does not: on any tax-year string
whose year fails to parse it silently returns the zero-valued
`IncomeTaxReturn` (period dates unset, all totals zero, status "draft")
instead of raising. -/
theorem income_tax_failure_semantics_amended :
    (∀ (ty : String) (items : List IncomeItem), parseTaxYearStart ty = none →
        taxManagerCalcIncomeTaxReturn ty items =
          { tax_year := ty, period_start := none, period_end := none
            total_income := 0, total_expenses := 0, net_profit := 0
            tax_allowance := 0, taxable_income := 0, tax_due := 0
            status := "draft" }) ∧
      ∀ (ty : String) (d : IncomeData), ty ≠ "2023-24" →
        hmrcCalculateIncomeTax ty d =
          .error ("tax rates not found for tax year: " ++ ty) := by
  constructor
  · intro ty items h
    unfold taxManagerCalcIncomeTaxReturn mkIncomeTaxReturn
    rw [h]
  · intro ty d h
    unfold hmrcCalculateIncomeTax
    rw [if_neg h]

/-- Witness for C9 (amended): "bad-23" fails to parse and yields the silent
zero return; "2022-23" is not the stored rate year and makes the HMRC
calculator fail. -/
theorem income_tax_failure_semantics_amended_witness :
    parseTaxYearStart "bad-23" = none ∧
      taxManagerCalcIncomeTaxReturn "bad-23" [] =
        { tax_year := "bad-23", period_start := none, period_end := none
          total_income := 0, total_expenses := 0, net_profit := 0, tax_allowance := 0
          taxable_income := 0, tax_due := 0, status := "draft" } ∧
      ("2022-23" : String) ≠ "2023-24" ∧
      hmrcCalculateIncomeTax "2022-23" ⟨0, 0, 0, 0, 0, 0, 0⟩ =
        .error ("tax rates not found for tax year: " ++ "2022-23") :=
  ⟨by rfl,
    income_tax_failure_semantics_amended.1 "bad-23" [] (by rfl),
    by decide,
    income_tax_failure_semantics_amended.2 "2022-23" ⟨0, 0, 0, 0, 0, 0, 0⟩ (by decide)⟩

end Accountant
